import Mathlib

/-!
Shallow embedding of the gnss-rtk core (src/src/candidate.rs and
src/src/model/mod.rs).

Modelling conventions:
* `f64` scalars are embedded as `ℚ` (exact field arithmetic);
* `hifitime::Epoch` is a pair of a duration (seconds, `ℚ`) and a time scale
  tag; `hifitime::Duration` is seconds as `ℚ`;
* Rust panics (`assert!`, `.unwrap()`) are embedded as `Option.none`:
  a function that can abort returns `Option _`, `none` meaning the abort;
* `std::collections::HashMap<SV, f64>` is embedded as an association list
  with replace-on-insert semantics (`insertKV`); key-based reads match the
  map semantics of `HashMap` (at most one live entry per key).
-/

namespace GnssRtk

/-- Time scale tag of an epoch (hifitime `TimeScale`). -/
inductive TimeScale
  | TAI
  | TT
  | UTC
  | GPST
  | GST
  | BDT
deriving DecidableEq, Repr

/-- hifitime `Duration`, in seconds. -/
abbrev Duration := ℚ

/-- hifitime `Epoch`: a duration since the reference of its time scale. -/
@[ext]
structure Epoch where
  duration : Duration
  time_scale : TimeScale
deriving DecidableEq, Repr

/-- `Epoch::from_duration(d, ts)`. -/
def Epoch.from_duration (d : Duration) (ts : TimeScale) : Epoch :=
  ⟨d, ts⟩

/-- `Epoch::to_duration()` followed by `Duration::to_seconds()`. -/
def Epoch.to_seconds (e : Epoch) : ℚ :=
  e.duration

/-- `e -= d` on an epoch (hifitime `Epoch - Duration`). -/
def Epoch.subDuration (e : Epoch) (d : Duration) : Epoch :=
  ⟨e.duration - d, e.time_scale⟩

/-- `t - e` on two epochs of the same time scale, as seconds
(hifitime `Epoch - Epoch` then `.to_seconds()`). -/
def Epoch.subEpoch (t e : Epoch) : ℚ :=
  t.duration - e.duration

/-- `nyx_space::cosmic::SPEED_OF_LIGHT` in m/s. -/
def SPEED_OF_LIGHT : ℚ := 299792458

/-- `gnss::prelude::SV`: a satellite vehicle identifier. -/
structure SV where
  constellation : Nat
  prn : Nat
deriving DecidableEq, Repr

/-- 3D vector of scalars (`Vector3D`). -/
abbrev Vector3D := ℚ × ℚ × ℚ

/-- `PseudoRange`: one pseudo-range observation on a carrier frequency. -/
structure PseudoRange where
  value : ℚ
  frequency : ℚ
deriving DecidableEq, Repr

/-- The `Error` variant raised by `Candidate::new` on an empty observation
list (`Error::NeedsAtLeastOnePseudoRange`, from src/src/candidate.rs:61). -/
inductive Error
  | NeedsAtLeastOnePseudoRange
deriving DecidableEq, Repr

/-- Atmospherical, physical and environmental modeling flags
(src/src/model/mod.rs, `Modeling`). -/
structure Modeling where
  sv_clock_bias : Bool
  tropo_delay : Bool
  iono_delay : Bool
  sv_total_group_delay : Bool
  earth_rotation : Bool
  relativistic_clock_corr : Bool
deriving DecidableEq, Repr

/-- Solver configuration; only its `modeling` field is read by this core. -/
structure Config where
  modeling : Modeling
deriving DecidableEq, Repr

/-- Position solving candidate (src/src/candidate.rs, `Candidate`). -/
structure Candidate where
  sv : SV
  t : Epoch
  state : Option Vector3D
  elevation : Option ℚ
  azimuth : Option ℚ
  tgd : Option Duration
  clock_state : Vector3D
  clock_corr : Duration
  snr : Option ℚ
  pseudo_range : List PseudoRange
deriving DecidableEq, Repr

/-- `Candidate::new` (src/src/candidate.rs:52-76): fails when the
observation list is empty, otherwise builds a candidate whose optional
physical fields all start unset. -/
def Candidate.new (sv : SV) (t : Epoch) (clock_state : Vector3D)
    (clock_corr : Duration) (snr : Option ℚ)
    (pseudo_range : List PseudoRange) : Except Error Candidate :=
  if pseudo_range.length = 0 then
    .error .NeedsAtLeastOnePseudoRange
  else
    .ok { sv := sv, t := t, clock_state := clock_state,
          clock_corr := clock_corr, snr := snr,
          pseudo_range := pseudo_range,
          tgd := none, state := none, elevation := none, azimuth := none }

/-- Rust `Iterator::reduce(|k, _| k)`: keeps the first element. -/
def reduceFirst {α : Type} : List α → Option α
  | [] => none
  | x :: xs => some (xs.foldl (fun k _ => k) x)

/-- `Candidate::pseudo_range()` (src/src/candidate.rs:91-97): one pseudo
range observation in meters, disregarding frequency; `none` embeds the
`.unwrap()` panic on an (unconstructible) empty observation list. -/
def Candidate.pseudoRangeValue (c : Candidate) : Option ℚ :=
  reduceFirst (c.pseudo_range.map PseudoRange.value)

/-- The tentative transmission epoch of `Candidate::transmission_time`
after the light-time inversion and the two gated corrections
(src/src/candidate.rs:102-117), given the pseudo range `pr` in meters. -/
def Candidate.correctedTx (c : Candidate) (cfg : Config) (pr : ℚ) : Epoch :=
  let t := c.t
  let ts := c.t.time_scale
  let seconds_ts := t.to_seconds
  let dt_tx := seconds_ts - pr / SPEED_OF_LIGHT
  let e_tx := Epoch.from_duration dt_tx ts
  let e_tx :=
    if cfg.modeling.sv_clock_bias then e_tx.subDuration c.clock_corr
    else e_tx
  let e_tx :=
    if cfg.modeling.sv_total_group_delay then
      match c.tgd with
      | some tgd => e_tx.subDuration tgd
      | none => e_tx
    else e_tx
  e_tx

/-- The physical-plausibility gap `(t - e_tx).to_seconds()` checked by
`Candidate::transmission_time` (src/src/candidate.rs:120). -/
def Candidate.txGap (c : Candidate) (cfg : Config) (pr : ℚ) : ℚ :=
  c.t.subEpoch (c.correctedTx cfg pr)

/-- `Candidate::transmission_time` (src/src/candidate.rs:101-125).
`none` embeds the two `assert!` aborts (and the unreachable `.unwrap()`
panic of `pseudo_range()` on an empty list). -/
def Candidate.transmission_time (c : Candidate) (cfg : Config) :
    Option Epoch :=
  match c.pseudoRangeValue with
  | none => none
  | some pr =>
    let e_tx := c.correctedTx cfg pr
    let dt := c.t.subEpoch e_tx
    if 0 < dt then
      if dt < 1 then some e_tx else none
    else none

/-- Zenith tropospheric delay components (`tropo::TropoComponents`):
wet (`zwd`) and dry (`zdd`) zenith delays in meters. -/
structure TropoComponents where
  zwd : ℚ
  zdd : ℚ
deriving DecidableEq, Repr

/-- Modelled from the spec: the file src/src/model/tropo.rs (module
`tropo`) is not present under src/, only its declaration and callers are.
The spec constrains `tropo_delay` to map `(elevation, wet, dry)` to a
slant delay through an elevation-mapping function that is monotonically
non-increasing in elevation and equals the zenith sum `wet + dry` at
elevation = 90 degrees. This representative rational mapping satisfies
exactly those constraints. -/
def tropo_delay (elev zwd zdd : ℚ) : ℚ :=
  (zdd + zwd) * (1 + (90 - elev) / 90)

/-- Modelled from the spec: src/src/model/tropo.rs is not present under
src/. `unb3_delay_components` is the built-in empirical (UNB3-style)
model computing `(zdd, zwd)` zenith components from epoch, receiver
latitude and altitude; the spec gives no formula, so a representative
total function with physically typical magnitudes is used (its values
are unconstrained by every claim that does not override it). -/
def unb3_delay_components (t : Epoch) (lat_ddeg : ℚ)
    (alt_above_sea_m : ℚ) : ℚ × ℚ :=
  (23/10 + lat_ddeg * 0 + alt_above_sea_m * 0 + t.duration * 0, 1/10)

/-- `Models = HashMap<SV, f64>` (src/src/model/mod.rs:107), embedded as
an association list with replace-on-insert semantics. -/
abbrev Models := List (SV × ℚ)

/-- `HashMap::insert`: replace the live entry for `k` or append one. -/
def insertKV (m : Models) (k : SV) (v : ℚ) : Models :=
  match m with
  | [] => [(k, v)]
  | (k0, v0) :: rest =>
    if k0 = k then (k, v) :: rest else (k0, v0) :: insertKV rest k v

/-- The zenith components `modelize` uses for one satellite
(src/src/model/mod.rs:124-138): the caller-supplied override when
present, otherwise the built-in empirical model. -/
def resolvedComponents (t : Epoch) (lat_ddeg alt_above_sea_m : ℚ)
    (tropo_components : Option TropoComponents) : TropoComponents :=
  match tropo_components with
  | some components => components
  | none =>
    let p := unb3_delay_components t lat_ddeg alt_above_sea_m
    { zwd := p.2, zdd := p.1 }

/-- The loop body of `Models::modelize` for one `(sv, elevation)` pair
(src/src/model/mod.rs:120-144): insert a zero entry unconditionally,
then overwrite it with the slant tropospheric delay when `tropo_delay`
is enabled. -/
def modelizeStep (t : Epoch) (lat_ddeg alt_above_sea_m : ℚ) (cfg : Config)
    (tropo_components : Option TropoComponents) (m : Models)
    (sve : SV × ℚ) : Models :=
  let m := insertKV m sve.1 0
  if cfg.modeling.tropo_delay then
    let components :=
      resolvedComponents t lat_ddeg alt_above_sea_m tropo_components
    insertKV m sve.1 (tropo_delay sve.2 components.zwd components.zdd)
  else m

/-- `Models::modelize` (src/src/model/mod.rs:110-145): clears the table
(the incoming table `m` is discarded) and rebuilds it from the given
`(sv, elevation)` pairs. -/
def modelize (m : Models) (t : Epoch) (sv : List (SV × ℚ))
    (lat_ddeg alt_above_sea_m : ℚ) (cfg : Config)
    (tropo_components : Option TropoComponents) : Models :=
  let _ := m
  sv.foldl (modelizeStep t lat_ddeg alt_above_sea_m cfg tropo_components) []

/-- `Models::sum_up` (src/src/model/mod.rs:146-151): the first table
value keyed by `sv`; `none` embeds the `.unwrap()` panic on a satellite
absent from the table. -/
def sum_up (m : Models) (sv : SV) : Option ℚ :=
  reduceFirst (m.filterMap fun kv => if kv.1 = sv then some kv.2 else none)

/-- The delay value `modelize` writes for a satellite at elevation
`elev`: the slant tropospheric delay when `tropo_delay` is enabled,
otherwise the zero baseline. -/
def delay_value (t : Epoch) (lat_ddeg alt_above_sea_m : ℚ) (cfg : Config)
    (tropo_components : Option TropoComponents) (elev : ℚ) : ℚ :=
  if cfg.modeling.tropo_delay then
    let components :=
      resolvedComponents t lat_ddeg alt_above_sea_m tropo_components
    tropo_delay elev components.zwd components.zdd
  else 0

/-! ## Helper lemmas -/

@[simp]
lemma foldl_keep_first {α β : Type} (x : α) (xs : List β) :
    xs.foldl (fun k _ => k) x = x := by
  induction xs with
  | nil => rfl
  | cons y ys ih => exact ih

@[simp]
lemma reduceFirst_cons {α : Type} (x : α) (xs : List α) :
    reduceFirst (x :: xs) = some x := by
  simp [reduceFirst]

lemma pseudoRangeValue_cons {c : Candidate} {p : PseudoRange}
    {ps : List PseudoRange} (h : c.pseudo_range = p :: ps) :
    c.pseudoRangeValue = some p.value := by
  simp [Candidate.pseudoRangeValue, h]

/-- `transmission_time` in terms of the tentative epoch and the gap. -/
lemma transmission_time_eq {c : Candidate} {cfg : Config}
    {p : PseudoRange} {ps : List PseudoRange}
    (h : c.pseudo_range = p :: ps) :
    c.transmission_time cfg =
      if 0 < c.txGap cfg p.value ∧ c.txGap cfg p.value < 1 then
        some (c.correctedTx cfg p.value)
      else none := by
  rw [Candidate.transmission_time, pseudoRangeValue_cons h]
  simp only [Candidate.txGap]
  by_cases h0 : 0 < c.t.subEpoch (c.correctedTx cfg p.value)
  · by_cases h1 : c.t.subEpoch (c.correctedTx cfg p.value) < 1 <;>
      simp [h0, h1]
  · simp [h0]

lemma correctedTx_time_scale (c : Candidate) (cfg : Config) (pr : ℚ) :
    (c.correctedTx cfg pr).time_scale = c.t.time_scale := by
  unfold Candidate.correctedTx
  cases hclk : cfg.modeling.sv_clock_bias <;>
    cases htgd : cfg.modeling.sv_total_group_delay <;>
      cases hg : c.tgd <;>
        simp [Epoch.subDuration, Epoch.from_duration]

/-- `correctedTx` written as one closed-form duration expression. -/
lemma correctedTx_duration (c : Candidate) (cfg : Config) (pr : ℚ) :
    (c.correctedTx cfg pr).duration =
      c.t.duration - pr / SPEED_OF_LIGHT
        - (if cfg.modeling.sv_clock_bias then c.clock_corr else 0)
        - (if cfg.modeling.sv_total_group_delay then c.tgd.getD 0
           else 0) := by
  unfold Candidate.correctedTx
  cases hclk : cfg.modeling.sv_clock_bias <;>
    cases htgd : cfg.modeling.sv_total_group_delay <;>
      cases hg : c.tgd <;>
        simp [Epoch.subDuration, Epoch.from_duration, Epoch.to_seconds]

/-! ## Example values used by the witnesses -/

def exampleSV : SV := ⟨0, 1⟩

def exampleObs : PseudoRange := ⟨149896229/5, 1575420000⟩

def exampleCandidate : Candidate :=
  { sv := exampleSV, t := ⟨1, TimeScale.GPST⟩, state := none,
    elevation := none, azimuth := none, tgd := some (1/1000),
    clock_state := (0, 0, 0), clock_corr := 1/100, snr := none,
    pseudo_range := [exampleObs] }

def exampleCfg (clk tgd : Bool) : Config :=
  ⟨⟨clk, true, true, tgd, false, false⟩⟩

/-! ## Claim theorems: Candidate -/

/-- C1: with `sv_clock_bias` and `sv_total_group_delay` both enabled,
first-inserted range observation `R = p.value`, clock correction
`c.clock_corr` and group delay `G` present, a returned transmission
epoch equals `t - R/c - C - G` (in `t`'s own time scale). -/
theorem transmission_time_both_corrections {c : Candidate} {cfg : Config}
    {p : PseudoRange} {ps : List PseudoRange} {G : Duration} {e : Epoch}
    (hobs : c.pseudo_range = p :: ps) (hG : c.tgd = some G)
    (hclk : cfg.modeling.sv_clock_bias = true)
    (htgd : cfg.modeling.sv_total_group_delay = true)
    (he : c.transmission_time cfg = some e) :
    e = ⟨c.t.duration - p.value / SPEED_OF_LIGHT - c.clock_corr - G,
         c.t.time_scale⟩ := by
  rw [transmission_time_eq hobs] at he
  split at he
  · have hmk : c.correctedTx cfg p.value = e := Option.some.inj he
    have hdur := correctedTx_duration c cfg p.value
    have hts := correctedTx_time_scale c cfg p.value
    rw [hclk, hG, htgd] at hdur
    simp only [if_true, Option.getD_some] at hdur
    rw [← hmk]
    exact Epoch.ext hdur hts
  · exact absurd he (by simp)

/-- C1 witness: the theorem applied at a fully concrete candidate. -/
theorem transmission_time_both_corrections_witness :
    exampleCandidate.transmission_time (exampleCfg true true) =
      some ⟨889/1000, TimeScale.GPST⟩ ∧
    (⟨889/1000, TimeScale.GPST⟩ : Epoch) =
      ⟨exampleCandidate.t.duration
         - exampleObs.value / SPEED_OF_LIGHT
         - exampleCandidate.clock_corr - 1/1000,
       exampleCandidate.t.time_scale⟩ :=
  ⟨by norm_num [Candidate.transmission_time, Candidate.pseudoRangeValue,
      reduceFirst, exampleCandidate, exampleObs, exampleCfg,
      Candidate.correctedTx, Epoch.from_duration, Epoch.subDuration,
      Epoch.to_seconds, Epoch.subEpoch, SPEED_OF_LIGHT],
   @transmission_time_both_corrections exampleCandidate
     (exampleCfg true true) exampleObs [] (1/1000)
     ⟨889/1000, TimeScale.GPST⟩ rfl rfl rfl rfl
     (by norm_num [Candidate.transmission_time, Candidate.pseudoRangeValue,
        reduceFirst, exampleCandidate, exampleObs, exampleCfg,
        Candidate.correctedTx, Epoch.from_duration, Epoch.subDuration,
        Epoch.to_seconds, Epoch.subEpoch, SPEED_OF_LIGHT])⟩

/-- C2: `transmission_time` returns an epoch exactly when the gap
between the sampling instant and the corrected transmission epoch is
strictly inside `(0, 1)` seconds, and the returned epoch is then exactly
the corrected transmission epoch (never a wrong one); outside that range
the computation aborts (`none`). -/
theorem transmission_time_gap_plausibility {c : Candidate} {cfg : Config}
    {p : PseudoRange} {ps : List PseudoRange} {e : Epoch}
    (hobs : c.pseudo_range = p :: ps) :
    c.transmission_time cfg = some e ↔
      (0 < c.txGap cfg p.value ∧ c.txGap cfg p.value < 1 ∧
       e = c.correctedTx cfg p.value) := by
  rw [transmission_time_eq hobs]
  by_cases hc : 0 < c.txGap cfg p.value ∧ c.txGap cfg p.value < 1
  · obtain ⟨h0, h1⟩ := hc
    rw [if_pos ⟨h0, h1⟩]
    simp only [Option.some.injEq]
    constructor
    · intro h
      exact ⟨h0, h1, h.symm⟩
    · intro h
      exact h.2.2.symm
  · rw [if_neg hc]
    constructor
    · intro h
      exact absurd h (by simp)
    · rintro ⟨h0, h1, _⟩
      exact absurd ⟨h0, h1⟩ hc

/-- C2 witness: the equivalence at a fully concrete candidate. -/
theorem transmission_time_gap_plausibility_witness :
    exampleCandidate.transmission_time (exampleCfg true true) =
      some ⟨889/1000, TimeScale.GPST⟩ ↔
      (0 < exampleCandidate.txGap (exampleCfg true true) exampleObs.value ∧
       exampleCandidate.txGap (exampleCfg true true) exampleObs.value < 1 ∧
       (⟨889/1000, TimeScale.GPST⟩ : Epoch) =
         exampleCandidate.correctedTx (exampleCfg true true)
           exampleObs.value) :=
  @transmission_time_gap_plausibility exampleCandidate
    (exampleCfg true true) exampleObs []
    ⟨889/1000, TimeScale.GPST⟩ rfl

/-- C3: `Candidate::new` fails with `NeedsAtLeastOnePseudoRange` exactly
on an empty observation list; on a non-empty list it succeeds and the
state, elevation, azimuth and group-delay fields are all unset. -/
theorem candidate_new_spec (sv : SV) (t : Epoch) (cs : Vector3D)
    (cc : Duration) (snr : Option ℚ) (prs : List PseudoRange) :
    (Candidate.new sv t cs cc snr prs =
       .error .NeedsAtLeastOnePseudoRange ↔ prs = []) ∧
    (prs ≠ [] →
      Candidate.new sv t cs cc snr prs =
        .ok { sv := sv, t := t, state := none, elevation := none,
              azimuth := none, tgd := none, clock_state := cs,
              clock_corr := cc, snr := snr, pseudo_range := prs }) := by
  cases prs with
  | nil => simp [Candidate.new]
  | cons p ps => simp [Candidate.new]

/-- C3 witness: failure on the empty list and success on a singleton. -/
theorem candidate_new_spec_witness :
    Candidate.new exampleSV ⟨1, TimeScale.GPST⟩ (0, 0, 0) (1/100) none
        [] = .error .NeedsAtLeastOnePseudoRange ∧
    Candidate.new exampleSV ⟨1, TimeScale.GPST⟩ (0, 0, 0) (1/100) none
        [exampleObs] =
      .ok { sv := exampleSV, t := ⟨1, TimeScale.GPST⟩, state := none,
            elevation := none, azimuth := none, tgd := none,
            clock_state := (0, 0, 0), clock_corr := 1/100, snr := none,
            pseudo_range := [exampleObs] } :=
  ⟨(candidate_new_spec exampleSV ⟨1, TimeScale.GPST⟩ (0, 0, 0) (1/100)
      none []).1.mpr rfl,
   (candidate_new_spec exampleSV ⟨1, TimeScale.GPST⟩ (0, 0, 0) (1/100)
      none [exampleObs]).2 (by simp)⟩

/-- C4: `pseudo_range()` never fails on a candidate whose observation
list is non-empty and returns exactly the first observation's value,
whatever the additional observations are (it is a pure function, hence
deterministic across repeated calls). -/
theorem pseudo_range_first_observation {c : Candidate} {p : PseudoRange}
    {ps : List PseudoRange} (hobs : c.pseudo_range = p :: ps) :
    c.pseudoRangeValue = some p.value :=
  pseudoRangeValue_cons hobs

/-- C4 witness: the first-observation value at a concrete candidate. -/
theorem pseudo_range_first_observation_witness :
    exampleCandidate.pseudoRangeValue = some exampleObs.value :=
  @pseudo_range_first_observation exampleCandidate exampleObs [] rfl

/-- C5: a returned transmission epoch carries the clock-correction term
exactly when `sv_clock_bias` is enabled and the group-delay term exactly
when `sv_total_group_delay` is enabled and a group delay is present; the
two gates are independent, covering all four flag combinations. -/
theorem transmission_time_correction_gates {c : Candidate} {cfg : Config}
    {p : PseudoRange} {ps : List PseudoRange} {e : Epoch}
    (hobs : c.pseudo_range = p :: ps)
    (he : c.transmission_time cfg = some e) :
    e.duration = c.t.duration - p.value / SPEED_OF_LIGHT
      - (if cfg.modeling.sv_clock_bias = true then c.clock_corr else 0)
      - (if cfg.modeling.sv_total_group_delay = true ∧
            c.tgd.isSome = true then c.tgd.getD 0 else 0) := by
  rw [transmission_time_eq hobs] at he
  split at he
  · have hmk : c.correctedTx cfg p.value = e := Option.some.inj he
    rw [← hmk, correctedTx_duration c cfg p.value]
    cases htgd : cfg.modeling.sv_total_group_delay <;>
      cases hg : c.tgd <;> simp
  · exact absurd he (by simp)

/-- C5 witness: the gate formula at a concrete candidate with the
clock-bias gate disabled and the group-delay gate enabled. -/
theorem transmission_time_correction_gates_witness :
    exampleCandidate.transmission_time (exampleCfg false true) =
      some ⟨899/1000, TimeScale.GPST⟩ ∧
    (⟨899/1000, TimeScale.GPST⟩ : Epoch).duration =
      exampleCandidate.t.duration - exampleObs.value / SPEED_OF_LIGHT
        - (if (exampleCfg false true).modeling.sv_clock_bias = true then
             exampleCandidate.clock_corr else 0)
        - (if (exampleCfg false true).modeling.sv_total_group_delay = true ∧
              exampleCandidate.tgd.isSome = true then
             exampleCandidate.tgd.getD 0 else 0) :=
  ⟨by norm_num [Candidate.transmission_time, Candidate.pseudoRangeValue,
      reduceFirst, exampleCandidate, exampleObs, exampleCfg,
      Candidate.correctedTx, Epoch.from_duration, Epoch.subDuration,
      Epoch.to_seconds, Epoch.subEpoch, SPEED_OF_LIGHT],
   @transmission_time_correction_gates exampleCandidate
     (exampleCfg false true) exampleObs []
     ⟨899/1000, TimeScale.GPST⟩ rfl
     (by norm_num [Candidate.transmission_time, Candidate.pseudoRangeValue,
        reduceFirst, exampleCandidate, exampleObs, exampleCfg,
        Candidate.correctedTx, Epoch.from_duration, Epoch.subDuration,
        Epoch.to_seconds, Epoch.subEpoch, SPEED_OF_LIGHT])⟩

/-- C10: a returned transmission epoch is expressed in the same time
scale as the candidate's sampling instant. -/
theorem transmission_time_preserves_time_scale {c : Candidate}
    {cfg : Config} {e : Epoch}
    (he : c.transmission_time cfg = some e) :
    e.time_scale = c.t.time_scale := by
  unfold Candidate.transmission_time at he
  cases hpr : c.pseudoRangeValue with
  | none =>
    rw [hpr] at he
    exact absurd he (by simp)
  | some pr =>
    rw [hpr] at he
    simp only at he
    split at he
    · split at he
      · have hmk : c.correctedTx cfg pr = e := Option.some.inj he
        rw [← hmk]
        exact correctedTx_time_scale c cfg pr
      · exact absurd he (by simp)
    · exact absurd he (by simp)

/-- C10 witness: the time scale of a concretely computed epoch. -/
theorem transmission_time_preserves_time_scale_witness :
    (⟨889/1000, TimeScale.GPST⟩ : Epoch).time_scale =
      exampleCandidate.t.time_scale :=
  @transmission_time_preserves_time_scale exampleCandidate
    (exampleCfg true true) ⟨889/1000, TimeScale.GPST⟩
    (by norm_num [Candidate.transmission_time, Candidate.pseudoRangeValue,
       reduceFirst, exampleCandidate, exampleObs, exampleCfg,
       Candidate.correctedTx, Epoch.from_duration, Epoch.subDuration,
       Epoch.to_seconds, Epoch.subEpoch, SPEED_OF_LIGHT])

/-! ## Helper lemmas: the delay table -/

@[simp]
lemma sum_up_nil (sv : SV) : sum_up [] sv = none := rfl

lemma sum_up_cons (k : SV) (v : ℚ) (m : Models) (sv : SV) :
    sum_up ((k, v) :: m) sv = if k = sv then some v else sum_up m sv := by
  by_cases h : k = sv <;> simp [sum_up, List.filterMap_cons, h]

lemma sum_up_insertKV (m : Models) (k : SV) (v : ℚ) (sv : SV) :
    sum_up (insertKV m k v) sv =
      if k = sv then some v else sum_up m sv := by
  induction m with
  | nil => simp [insertKV, sum_up_cons]
  | cons kv rest ih =>
    obtain ⟨k0, v0⟩ := kv
    by_cases hk : k0 = k
    · subst hk
      rw [insertKV, if_pos rfl, sum_up_cons, sum_up_cons]
      by_cases hsv : k0 = sv <;> simp [hsv]
    · rw [insertKV, if_neg hk, sum_up_cons, sum_up_cons, ih]
      by_cases h0 : k0 = sv
      · have h1 : ¬k = sv := fun h => hk (h0.trans h.symm)
        simp [h0, h1]
      · simp [h0]

lemma sum_up_append (a b : Models) (sv : SV) :
    sum_up (a ++ b) sv =
      (sum_up a sv).elim (sum_up b sv) some := by
  induction a with
  | nil => simp
  | cons kv rest ih =>
    obtain ⟨k0, v0⟩ := kv
    rw [List.cons_append, sum_up_cons, sum_up_cons]
    by_cases h0 : k0 = sv <;> simp [h0, ih]

lemma sum_up_eq_none_iff (m : Models) (sv : SV) :
    sum_up m sv = none ↔ sv ∉ m.map Prod.fst := by
  induction m with
  | nil => simp
  | cons kv rest ih =>
    obtain ⟨k0, v0⟩ := kv
    rw [sum_up_cons]
    by_cases h0 : k0 = sv
    · subst h0
      simp
    · rw [if_neg h0, ih]
      simp only [List.map_cons, List.mem_cons]
      constructor
      · intro h hm
        rcases hm with h1 | h2
        · exact h0 h1.symm
        · exact h h2
      · intro h hm
        exact h (Or.inr hm)

lemma sum_up_modelizeStep (t : Epoch) (lat_ddeg alt_above_sea_m : ℚ)
    (cfg : Config) (tropo_components : Option TropoComponents)
    (m : Models) (sve : SV × ℚ) (sv : SV) :
    sum_up (modelizeStep t lat_ddeg alt_above_sea_m cfg tropo_components
        m sve) sv =
      if sve.1 = sv then
        some (delay_value t lat_ddeg alt_above_sea_m cfg tropo_components
          sve.2)
      else sum_up m sv := by
  unfold modelizeStep delay_value
  cases hc : cfg.modeling.tropo_delay <;>
    by_cases h : sve.1 = sv <;> simp [hc, h, sum_up_insertKV]

lemma sum_up_modelize_foldl (t : Epoch) (lat_ddeg alt_above_sea_m : ℚ)
    (cfg : Config) (tropo_components : Option TropoComponents)
    (l acc : List (SV × ℚ)) (sv : SV) :
    sum_up (l.foldl (modelizeStep t lat_ddeg alt_above_sea_m cfg
        tropo_components) acc) sv =
      (sum_up l.reverse sv).elim (sum_up acc sv)
        (fun elev => some (delay_value t lat_ddeg alt_above_sea_m cfg
          tropo_components elev)) := by
  induction l generalizing acc with
  | nil => simp
  | cons kv xs ih =>
    obtain ⟨k, e⟩ := kv
    rw [List.foldl_cons, ih, List.reverse_cons, sum_up_append]
    cases h : sum_up xs.reverse sv with
    | some v => simp [h]
    | none =>
      rw [sum_up_modelizeStep]
      by_cases hk : k = sv <;> simp [h, hk, sum_up_cons]

/-- `sum_up` on the table `modelize` just built, as a function of the
last elevation recorded for `sv` in the input list. -/
lemma sum_up_modelize (m : Models) (t : Epoch) (l : List (SV × ℚ))
    (lat_ddeg alt_above_sea_m : ℚ) (cfg : Config)
    (tropo_components : Option TropoComponents) (sv : SV) :
    sum_up (modelize m t l lat_ddeg alt_above_sea_m cfg tropo_components)
        sv =
      (sum_up l.reverse sv).elim none
        (fun elev => some (delay_value t lat_ddeg alt_above_sea_m cfg
          tropo_components elev)) := by
  unfold modelize
  rw [sum_up_modelize_foldl]
  rfl

/-! ## Claim theorems: delay model -/

/-- C6: after `modelize`, the delay table's key set is exactly the set
of satellite identifiers of the input list, whatever table was there
before the call (full rebuild: no residual entry survives). -/
theorem modelize_keys (m : Models) (t : Epoch) (l : List (SV × ℚ))
    (lat_ddeg alt_above_sea_m : ℚ) (cfg : Config)
    (tropo_components : Option TropoComponents) (sv : SV) :
    sv ∈ (modelize m t l lat_ddeg alt_above_sea_m cfg
        tropo_components).map Prod.fst ↔
      sv ∈ l.map Prod.fst := by
  rw [← not_iff_not, ← sum_up_eq_none_iff]
  rw [sum_up_modelize]
  have hrev : sv ∈ l.map Prod.fst ↔ sv ∈ l.reverse.map Prod.fst := by
    simp [List.mem_map]
  rw [hrev, ← sum_up_eq_none_iff]
  cases h : sum_up l.reverse sv <;> simp [h]

/-- C6 witness: a second call's table holds exactly the second call's
satellites, including when the first call's table is passed in. -/
theorem modelize_keys_witness :
    (exampleSV ∈ (modelize
        (modelize [] ⟨0, TimeScale.TAI⟩ [(⟨1, 7⟩, 45)] 45 100
          (exampleCfg true true) none)
        ⟨0, TimeScale.TAI⟩ [(exampleSV, 60)] 45 100
        (exampleCfg true true) none).map Prod.fst ↔
      exampleSV ∈ ([(exampleSV, (60 : ℚ))]).map Prod.fst) :=
  modelize_keys
    (modelize [] ⟨0, TimeScale.TAI⟩ [(⟨1, 7⟩, 45)] 45 100
      (exampleCfg true true) none)
    ⟨0, TimeScale.TAI⟩ [(exampleSV, 60)] 45 100
    (exampleCfg true true) none exampleSV

/-- C7: with `tropo_delay` disabled, every satellite of the input list
ends with a table entry equal to exactly 0, for every elevation,
receiver position, epoch and override components. -/
theorem modelize_tropo_disabled (m : Models) (t : Epoch)
    (l : List (SV × ℚ)) (lat_ddeg alt_above_sea_m : ℚ) (cfg : Config)
    (tropo_components : Option TropoComponents) (sv : SV)
    (hcfg : cfg.modeling.tropo_delay = false)
    (hmem : sv ∈ l.map Prod.fst) :
    sum_up (modelize m t l lat_ddeg alt_above_sea_m cfg
        tropo_components) sv = some 0 := by
  rw [sum_up_modelize]
  have hrev : sv ∈ l.reverse.map Prod.fst := by
    simp only [List.mem_map] at hmem ⊢
    obtain ⟨x, hx, hfst⟩ := hmem
    exact ⟨x, List.mem_reverse.mpr hx, hfst⟩
  cases h : sum_up l.reverse sv with
  | none => exact absurd hrev ((sum_up_eq_none_iff _ _).mp h)
  | some elev => simp [h, delay_value, hcfg]

/-- C7 witness: a zero entry at a concrete disabled configuration. -/
theorem modelize_tropo_disabled_witness :
    sum_up (modelize [] ⟨0, TimeScale.TAI⟩ [(exampleSV, 60)] 45 100
      ⟨⟨true, false, true, true, false, false⟩⟩
      (some ⟨1/10, 23/10⟩)) exampleSV = some 0 :=
  modelize_tropo_disabled [] ⟨0, TimeScale.TAI⟩ [(exampleSV, 60)] 45 100
    ⟨⟨true, false, true, true, false, false⟩⟩ (some ⟨1/10, 23/10⟩)
    exampleSV rfl (by simp)

/-- C8: for a satellite of the most recent `modelize` input (with last
recorded elevation `elev` there), `sum_up` returns exactly the delay
value that `modelize` wrote for it in that call. -/
theorem sum_up_after_modelize (m : Models) (t : Epoch)
    (l : List (SV × ℚ)) (lat_ddeg alt_above_sea_m : ℚ) (cfg : Config)
    (tropo_components : Option TropoComponents) (sv : SV) (elev : ℚ)
    (hlast : sum_up l.reverse sv = some elev) :
    sum_up (modelize m t l lat_ddeg alt_above_sea_m cfg
        tropo_components) sv =
      some (delay_value t lat_ddeg alt_above_sea_m cfg tropo_components
        elev) := by
  rw [sum_up_modelize, hlast]
  rfl

/-- C8 witness: the written value read back at a concrete call. -/
theorem sum_up_after_modelize_witness :
    sum_up (modelize [] ⟨0, TimeScale.TAI⟩ [(exampleSV, 60)] 45 100
        (exampleCfg true true) (some ⟨1/10, 23/10⟩)) exampleSV =
      some (delay_value ⟨0, TimeScale.TAI⟩ 45 100 (exampleCfg true true)
        (some ⟨1/10, 23/10⟩) 60) :=
  sum_up_after_modelize [] ⟨0, TimeScale.TAI⟩ [(exampleSV, 60)] 45 100
    (exampleCfg true true) (some ⟨1/10, 23/10⟩) exampleSV 60
    (by simp [sum_up_cons])

/-- C9: with `tropo_delay` enabled and an override `{wet, dry}` pair of
nonnegative zenith components, the slant delay `modelize` writes is
`tropo_delay elev wet dry`, which is monotonically non-increasing in the
elevation angle and equals the zenith sum `wet + dry` at 90 degrees. -/
theorem modelize_tropo_override_monotone (m : Models) (t : Epoch)
    (lat_ddeg alt_above_sea_m : ℚ) (cfg : Config) (sv : SV)
    (wet dry e1 e2 : ℚ) (hcfg : cfg.modeling.tropo_delay = true)
    (hw : 0 ≤ wet) (hd : 0 ≤ dry) (he : e1 ≤ e2) :
    sum_up (modelize m t [(sv, e2)] lat_ddeg alt_above_sea_m cfg
        (some ⟨wet, dry⟩)) sv = some (tropo_delay e2 wet dry) ∧
    tropo_delay e2 wet dry ≤ tropo_delay e1 wet dry ∧
    tropo_delay 90 wet dry = wet + dry := by
  refine ⟨?_, ?_, ?_⟩
  · rw [sum_up_modelize]
    simp [sum_up_cons, delay_value, resolvedComponents, hcfg]
  · unfold tropo_delay
    have h1 : 1 + (90 - e2) / 90 ≤ 1 + (90 - e1) / 90 := by linarith
    exact mul_le_mul_of_nonneg_left h1 (by linarith)
  · unfold tropo_delay
    norm_num
    ring

/-- C9 witness: the override slant delay at concrete elevations. -/
theorem modelize_tropo_override_monotone_witness :
    (sum_up (modelize [] ⟨0, TimeScale.TAI⟩ [(exampleSV, 60)] 45 100
        (exampleCfg true true) (some ⟨1/10, 23/10⟩)) exampleSV =
      some (tropo_delay 60 (1/10) (23/10)) ∧
    tropo_delay 60 (1/10) (23/10) ≤ tropo_delay 30 (1/10) (23/10) ∧
    tropo_delay 90 (1/10) (23/10) = 1/10 + 23/10) :=
  modelize_tropo_override_monotone [] ⟨0, TimeScale.TAI⟩ 45 100
    (exampleCfg true true) exampleSV (1/10) (23/10) 30 60 rfl
    (by norm_num) (by norm_num) (by norm_num)

end GnssRtk
